import Mathlib

/-!
Verification of the poroelastic solver (problem.py) against its
natural-language specification.

The development shallowly embeds the parts of PoroelasticProblem that the
claims are about:

* a small symbolic-expression language with labelled variables mirroring the
  UFL variable/diff mechanism used by fluid_solid_coupling (lines 150-159);
* the pointwise integrand of the fluid variational form built by
  set_fluid_variational_form (lines 112-147), over exact rationals, with 2x2
  matrix kinematics as dictated by the hard-coded (2,2) tensor space;
* the modified Cauchy-Green invariants of set_solid_variational_form
  (lines 90-100), parametric in the geometric dimension, over the reals;
* a shape checker for the tensor algebra of the fluid form builder;
* the permeability accessor K (lines 267-274) including the Python
  fall-through that leaves the local variable unbound;
* add_fluid_dirichlet_condition (lines 70-72), whose body consults a global
  name rather than a keyword argument;
* the time-stepping driver solve (lines 196-238) as a state machine over
  exact rationals, with the results of the two external nonlinear solves and
  the two projections supplied by oracle functions, and with the Python
  object identity of the pressure field made explicit (the form captures the
  Function object created in the constructor; fluid_solid_coupling rebinds
  the attribute to a fresh object).
-/

namespace Poroelastic

/-! ## Symbolic expressions with labelled variables (UFL variable / diff)

UFL differentiation with respect to a user-declared variable is structural:
diff(f, v) matches Variable nodes of f against the label of v; a Variable
with a different label is transparent (the derivative continues into its
body) and terminals unrelated to v differentiate to zero.  A variable(...)
call always allocates a fresh label from a global counter. -/

inductive SExpr where
  | const (q : ℚ)
  | term (i : ℕ)
  | svar (label : ℕ) (body : SExpr)
  | add (a b : SExpr)
  | mul (a b : SExpr)
  | neg (a : SExpr)
  | sinv (a : SExpr)
  | sexp (a : SExpr)
  | qpow (a : SExpr) (q : ℚ)
deriving DecidableEq

/-- All variable labels occurring in the expression are strictly below n. -/
def labelsBelow : SExpr → ℕ → Bool
  | .const _, _ => true
  | .term _, _ => true
  | .svar l b, n => decide (l < n) && labelsBelow b n
  | .add a b, n => labelsBelow a n && labelsBelow b n
  | .mul a b, n => labelsBelow a n && labelsBelow b n
  | .neg a, n => labelsBelow a n
  | .sinv a, n => labelsBelow a n
  | .sexp a, n => labelsBelow a n
  | .qpow a _, n => labelsBelow a n

/-- Structural derivative with respect to the variable labelled n, following
the UFL rules: a matching variable gives 1, a non-matching variable is
differentiated through its body, terminals give 0, and the usual sum,
product, reciprocal, exponential and power rules apply. -/
def sdiff : SExpr → ℕ → SExpr
  | .const _, _ => .const 0
  | .term _, _ => .const 0
  | .svar l b, n => if l = n then .const 1 else sdiff b n
  | .add a b, n => .add (sdiff a n) (sdiff b n)
  | .mul a b, n => .add (.mul (sdiff a n) b) (.mul a (sdiff b n))
  | .neg a, n => .neg (sdiff a n)
  | .sinv a, n => .neg (.mul (.sinv (.mul a a)) (sdiff a n))
  | .sexp a, n => .mul (.sexp a) (sdiff a n)
  | .qpow a q, n => .mul (.mul (.const q) (.qpow a (q - 1))) (sdiff a n)

/-- Evaluation of a symbolic expression.  Terminals are read from tau;
the exponential and the rational power are interpreted by the arbitrary
functions taue and taup, which is enough for every zero-propagation fact
used below. -/
def evalS (tau : ℕ → ℚ) (taue : ℚ → ℚ) (taup : ℚ → ℚ → ℚ) : SExpr → ℚ
  | .const q => q
  | .term i => tau i
  | .svar _ b => evalS tau taue taup b
  | .add a b => evalS tau taue taup a + evalS tau taue taup b
  | .mul a b => evalS tau taue taup a * evalS tau taue taup b
  | .neg a => - evalS tau taue taup a
  | .sinv a => (evalS tau taue taup a)⁻¹
  | .sexp a => taue (evalS tau taue taup a)
  | .qpow a q => taup (evalS tau taue taup a) q

/-- Terminal index of the fluid mass coefficient mf. -/
def termM : ℕ := 0

/-- Terminal index of the density constant rho. -/
def termRho : ℕ := 1

/-- Terminal index of the Lagrange multiplier field L. -/
def termL : ℕ := 2

/-- Terminal index standing for the solid displacement gradient data. -/
def termGradDU : ℕ := 3

/-- Embedding of fluid_solid_coupling (problem.py lines 150-159).

The method rebuilds the kinematics with fresh variable() calls: F, J and
finally variable(J * phi) all receive labels never used when Psi was built
in set_solid_variational_form.  Psi is the expression returned by the
constitutive law; n is the first label unused at the time of the call, so
the diff target receives label n + 2.  The returned expression is the
projected field diff(Psi, variable(J*phi)) - L. -/
def fluid_solid_coupling_expr (Psi : SExpr) (rho phi0 : ℚ) (n : ℕ) : SExpr :=
  -- F = variable(I + grad(dU)), label n (matrix valued; only its label matters)
  let F : SExpr := SExpr.svar n (SExpr.term termGradDU)
  -- J = variable(det(F)), label n + 1
  let J : SExpr := SExpr.svar (n + 1) F
  -- phi = (mf + rho * phi0) / (rho * J)
  let phi : SExpr :=
    SExpr.mul (SExpr.add (SExpr.term termM) (SExpr.const (rho * phi0)))
      (SExpr.sinv (SExpr.mul (SExpr.const rho) J))
  -- variable(J * phi) allocates the fresh label n + 2
  let target : SExpr := SExpr.svar (n + 2) (SExpr.mul J phi)
  -- p = project(diff(Psi, variable(J*phi)) - L, FS_F)
  SExpr.add (sdiff Psi (n + 2)) (SExpr.neg (SExpr.term termL))

/-- Example constitutive law for witnesses: an isotropic exponential form
built, as in set_solid_variational_form, from variables labelled below 6
(F, J, C, E, I1, I2 receive labels 0 to 5) and the terminals mf and rho. -/
def PsiExample : SExpr :=
  SExpr.mul (SExpr.const (1/2))
    (SExpr.sexp (SExpr.add (SExpr.svar 4 (SExpr.term termGradDU)) (SExpr.const (-3))))

/-- Concrete terminal valuation for witnesses. -/
def tauW : ℕ → ℚ := fun i => (i : ℚ)

/-! ## Pointwise fluid variational form (set_fluid_variational_form)

The form is assembled on a mesh of geometric dimension 2 (the only dimension
for which construction succeeds, see the shape checker below), so the
kinematic tensors are 2x2.  All fields are represented by their pointwise
values and gradients; the integrand under dx is a rational-valued function
of those values. -/

structure V2 where
  x : ℚ
  y : ℚ
deriving DecidableEq

structure M2 where
  a : ℚ
  b : ℚ
  c : ℚ
  d : ℚ
deriving DecidableEq

def V2.add (u v : V2) : V2 := ⟨u.x + v.x, u.y + v.y⟩

def V2.sub (u v : V2) : V2 := ⟨u.x - v.x, u.y - v.y⟩

def V2.smul (c : ℚ) (v : V2) : V2 := ⟨c * v.x, c * v.y⟩

def V2.negV (v : V2) : V2 := ⟨-v.x, -v.y⟩

def V2.dot (u v : V2) : ℚ := u.x * v.x + u.y * v.y

def M2.idM : M2 := ⟨1, 0, 0, 1⟩

def M2.addM (m n : M2) : M2 := ⟨m.a + n.a, m.b + n.b, m.c + n.c, m.d + n.d⟩

def M2.smulM (c : ℚ) (m : M2) : M2 := ⟨c * m.a, c * m.b, c * m.c, c * m.d⟩

def M2.mulM (m n : M2) : M2 :=
  ⟨m.a * n.a + m.b * n.c, m.a * n.b + m.b * n.d,
   m.c * n.a + m.d * n.c, m.c * n.b + m.d * n.d⟩

def M2.det (m : M2) : ℚ := m.a * m.d - m.b * m.c

def M2.transposeM (m : M2) : M2 := ⟨m.a, m.c, m.b, m.d⟩

def M2.invM (m : M2) : M2 :=
  ⟨m.d / m.det, -m.b / m.det, -m.c / m.det, m.a / m.det⟩

def M2.mulVec (m : M2) (v : V2) : V2 :=
  ⟨m.a * v.x + m.b * v.y, m.c * v.x + m.d * v.y⟩

/-- Pointwise data of all fields entering the fluid form: values and
gradients of the current and previous fluid mass, the displacement and its
gradient, the pressure, and the test function vm. -/
structure FluidPoint where
  m : ℚ
  m_n : ℚ
  gm : V2
  gm_n : V2
  dU : V2
  dU_n : V2
  gdU : M2
  p : ℚ
  gp : V2
  vm : ℚ
  gvm : V2
deriving DecidableEq

/-- Pointwise integrand of the fluid residual of set_fluid_variational_form
(problem.py lines 112-147):

qi = Constant(1e-1), k = Constant(1/dt), (th, th_) = theta(),
F = I + grad(dU), J = det(F), K = project(Ki * Identity, VK) = kappa * I,
M = th*m + th_*m_n, A = rho * J * inv(F) * K * inv(F.T),
Form = k*(m - m_n)*vm + dot(grad(M), k*(dU - dU_n))*vm
       - rho*qi*vm - inner(-A*grad(p), grad(vm)). -/
def set_fluid_variational_form_integrand (rho dt th kappa : ℚ) (pt : FluidPoint) : ℚ :=
  let qi : ℚ := 1 / 10
  let k : ℚ := 1 / dt
  let th_ : ℚ := 1 - th
  let F : M2 := M2.addM M2.idM pt.gdU
  let J : ℚ := F.det
  let Kt : M2 := M2.smulM kappa M2.idM
  let gradM : V2 := V2.add (V2.smul th pt.gm) (V2.smul th_ pt.gm_n)
  let A : M2 := M2.smulM (rho * J) (M2.mulM (M2.mulM F.invM Kt) F.transposeM.invM)
  k * (pt.m - pt.m_n) * pt.vm
    + V2.dot gradM (V2.smul k (V2.sub pt.dU pt.dU_n)) * pt.vm
    - rho * qi * pt.vm
    - V2.dot (V2.negV (A.mulVec pt.gp)) pt.gvm

/-- The fluid integrand exactly as the specification sentence words it:
the last term is minus (A grad p) dot grad v. -/
def fluid_form_claim_integrand (rho dt th kappa : ℚ) (pt : FluidPoint) : ℚ :=
  let qi : ℚ := 1 / 10
  let k : ℚ := 1 / dt
  let th_ : ℚ := 1 - th
  let F : M2 := M2.addM M2.idM pt.gdU
  let J : ℚ := F.det
  let Kt : M2 := M2.smulM kappa M2.idM
  let gradM : V2 := V2.add (V2.smul th pt.gm) (V2.smul th_ pt.gm_n)
  let A : M2 := M2.smulM (rho * J) (M2.mulM (M2.mulM F.invM Kt) F.transposeM.invM)
  k * (pt.m - pt.m_n) * pt.vm
    + V2.dot gradM (V2.smul k (V2.sub pt.dU pt.dU_n)) * pt.vm
    - rho * qi * pt.vm
    - V2.dot (A.mulVec pt.gp) pt.gvm

/-- The amended fluid integrand: as the specification but with the
permeability term entering with a plus sign, which is what subtracting
inner(-A grad p, grad v) produces. -/
def fluid_form_amended_integrand (rho dt th kappa : ℚ) (pt : FluidPoint) : ℚ :=
  let qi : ℚ := 1 / 10
  let k : ℚ := 1 / dt
  let th_ : ℚ := 1 - th
  let F : M2 := M2.addM M2.idM pt.gdU
  let J : ℚ := F.det
  let Kt : M2 := M2.smulM kappa M2.idM
  let gradM : V2 := V2.add (V2.smul th pt.gm) (V2.smul th_ pt.gm_n)
  let A : M2 := M2.smulM (rho * J) (M2.mulM (M2.mulM F.invM Kt) F.transposeM.invM)
  k * (pt.m - pt.m_n) * pt.vm
    + V2.dot gradM (V2.smul k (V2.sub pt.dU pt.dU_n)) * pt.vm
    - rho * qi * pt.vm
    + V2.dot (A.mulVec pt.gp) pt.gvm

/-- Pointwise form of dMForm = derivative(MForm, m): the Gateaux derivative
of the fluid integrand with respect to the coefficient m alone, in the
direction (dm, dgm); the pressure and the solid kinematics are distinct
coefficients and are not perturbed. -/
def set_fluid_variational_form_jacobian (rho dt th kappa : ℚ) (pt : FluidPoint)
    (dm : ℚ) (dgm : V2) : ℚ :=
  let k : ℚ := 1 / dt
  k * dm * pt.vm + V2.dot (V2.smul th dgm) (V2.smul k (V2.sub pt.dU pt.dU_n)) * pt.vm

/-- Perturbation of the fluid-mass coefficient by s in the direction
(dm, dgm); the value and the gradient of m move together. -/
def perturbM (pt : FluidPoint) (s dm : ℚ) (dgm : V2) : FluidPoint :=
  { pt with m := pt.m + s * dm, gm := V2.add pt.gm (V2.smul s dgm) }

/-- Concrete point separating the coded integrand from the literal
specification formula: only the pressure gradient and the test gradient are
nonzero. -/
def ptSign : FluidPoint :=
  { m := 0, m_n := 0, gm := ⟨0, 0⟩, gm_n := ⟨0, 0⟩, dU := ⟨0, 0⟩, dU_n := ⟨0, 0⟩,
    gdU := ⟨0, 0, 0, 0⟩, p := 0, gp := ⟨1, 0⟩, vm := 0, gvm := ⟨1, 0⟩ }

/-- Concrete point isolating the source term: only the test value is
nonzero. -/
def ptSource : FluidPoint :=
  { m := 0, m_n := 0, gm := ⟨0, 0⟩, gm_n := ⟨0, 0⟩, dU := ⟨0, 0⟩, dU_n := ⟨0, 0⟩,
    gdU := ⟨0, 0, 0, 0⟩, p := 0, gp := ⟨0, 0⟩, vm := 1, gvm := ⟨0, 0⟩ }

/-! ## Parameter bag and the source term -/

/-- The configuration bag for a scalar-permeability run, with the keys the
constructor and the accessors read. -/
structure Params where
  rho : ℚ
  phi : ℚ
  K : ℚ
  dt : ℚ
  tf : ℚ
  theta : ℚ
  TOL : ℚ
deriving DecidableEq

/-- The fluid integrand as a function of the parameter bag, plumbing the
accessors rho(), dt(), theta(), K() of problem.py into the form builder. -/
def fluidIntegrandOfParams (P : Params) (pt : FluidPoint) : ℚ :=
  set_fluid_variational_form_integrand P.rho P.dt P.theta P.K pt

/-- The fluid integrand generalized to an arbitrary source value q in the
place of the literal Constant(1e-1). -/
def fluid_form_integrand_with_source (rho dt th kappa q : ℚ) (pt : FluidPoint) : ℚ :=
  let k : ℚ := 1 / dt
  let th_ : ℚ := 1 - th
  let F : M2 := M2.addM M2.idM pt.gdU
  let J : ℚ := F.det
  let Kt : M2 := M2.smulM kappa M2.idM
  let gradM : V2 := V2.add (V2.smul th pt.gm) (V2.smul th_ pt.gm_n)
  let A : M2 := M2.smulM (rho * J) (M2.mulM (M2.mulM F.invM Kt) F.transposeM.invM)
  k * (pt.m - pt.m_n) * pt.vm
    + V2.dot gradM (V2.smul k (V2.sub pt.dU pt.dU_n)) * pt.vm
    - rho * q * pt.vm
    - V2.dot (V2.negV (A.mulVec pt.gp)) pt.gvm

/-- The generalized integrand driven by the parameter bag. -/
def fluidIntegrandWithSourceOfParams (P : Params) (q : ℚ) (pt : FluidPoint) : ℚ :=
  fluid_form_integrand_with_source P.rho P.dt P.theta P.K q pt

/-- Concrete parameter bag of the end-to-end scenario. -/
def P0 : Params :=
  { rho := 1000, phi := 1/10, K := 1/10000000, dt := 1/100, tf := 1/20,
    theta := 1/2, TOL := 1/100000000 }

/-! ## Modified Cauchy-Green invariants (set_solid_variational_form)

Lines 90-100 compute, for d the geometric dimension of the displacement,
F = I + grad(dU), J = det F, C = F.T * F and the modified invariants
I1 = J^(-2/3) * tr(C) and I2 = J^(-4/3) * (1/2) * (tr(C)^2 - tr(C*C)).
The exponents are fixed, not functions of d. -/

noncomputable def kinematics_I1 (d : ℕ) (F : Matrix (Fin d) (Fin d) ℝ) : ℝ :=
  F.det ^ (-(2 : ℝ) / 3) * (F.transpose * F).trace

noncomputable def kinematics_I2 (d : ℕ) (F : Matrix (Fin d) (Fin d) ℝ) : ℝ :=
  F.det ^ (-(4 : ℝ) / 3) * (1 / 2) *
    (((F.transpose * F).trace) ^ 2 - ((F.transpose * F) * (F.transpose * F)).trace)

/-! ## Tensor shapes of the fluid form builder -/

/-- UFL value shapes: scalar, vector of length n, matrix of shape r x c. -/
inductive UShape where
  | scalar
  | vec (n : ℕ)
  | mat (r c : ℕ)
deriving DecidableEq

/-- Shape of a UFL product: scalars scale anything; matrix times matrix and
matrix times vector require the inner dimensions to agree. -/
def mulShape : UShape → UShape → Option UShape
  | .scalar, t => some t
  | .vec n, .scalar => some (.vec n)
  | .mat r c, .scalar => some (.mat r c)
  | .mat r c, .mat r2 c2 => if c = r2 then some (.mat r c2) else none
  | .mat r c, .vec n => if c = n then some (.vec r) else none
  | .vec _, .mat _ _ => none
  | .vec _, .vec _ => none

/-- Shape of inv: defined on square matrices only. -/
def invShape : UShape → Option UShape
  | .mat r c => if r = c then some (.mat r c) else none
  | _ => none

/-- Shape of transpose. -/
def transposeShape : UShape → Option UShape
  | .mat r c => some (.mat c r)
  | _ => none

/-- Shape of grad on a mesh of geometric dimension d. -/
def gradShape : UShape → ℕ → Option UShape
  | .scalar, d => some (.vec d)
  | .vec n, d => some (.mat n d)
  | _, _ => none

/-- Shape of dot of two vectors. -/
def dotShape : UShape → UShape → Option UShape
  | .vec n, .vec m => if n = m then some .scalar else none
  | _, _ => none

/-- Shape of inner: both operands must have the same shape. -/
def innerShape : UShape → UShape → Option UShape
  | s, t => if s = t then some .scalar else none

/-- Shape of a sum: both operands must have the same shape. -/
def addShape : UShape → UShape → Option UShape
  | s, t => if s = t then some s else none

/-- Shape checking of set_fluid_variational_form on a mesh of geometric
dimension d (problem.py lines 112-147).  The tensor space VK and the
identity Expression are hard-coded to shape (2,2); the kinematic tensors
have shape (d,d); the form is the sum of four scalar terms. -/
def set_fluid_variational_form_shape (d : ℕ) : Option UShape :=
  -- F = I + grad(dU) has shape (d,d); K = project(Ki * exp, VK) has the
  -- hard-coded shape (2,2); rho, J, k, th, qi, m, m_n, vm are scalars
  Option.bind (invShape (UShape.mat d d)) fun invF =>
  Option.bind (transposeShape (UShape.mat d d)) fun Ft =>
  Option.bind (invShape Ft) fun invFT =>
  -- A = rho * J * inv(F) * K * inv(F.T)
  Option.bind (mulShape invF (UShape.mat 2 2)) fun a1 =>
  Option.bind (mulShape a1 invFT) fun Ashape =>
  -- dot(grad(M), k*(dU - dU_n)) * vm
  Option.bind (gradShape UShape.scalar d) fun gM =>
  Option.bind (dotShape gM (UShape.vec d)) fun t2 =>
  -- inner(-A*grad(p), grad(vm))
  Option.bind (gradShape UShape.scalar d) fun gP =>
  Option.bind (mulShape Ashape gP) fun Agp =>
  Option.bind (gradShape UShape.scalar d) fun gVm =>
  Option.bind (innerShape Agp gVm) fun t4 =>
  -- Form = k*(m - m_n)*vm + dot(...)*vm - rho*qi*vm - inner(...)
  Option.bind (addShape UShape.scalar t2) fun s1 =>
  Option.bind (addShape s1 UShape.scalar) fun s2 =>
  addShape s2 t4

/-! ## The permeability accessor K (problem.py lines 267-274)

The Python body assigns the local K inside an if / elif chain with no else
branch; for a parameter that is neither a str nor an int or float the local
stays unbound and the final return raises UnboundLocalError. -/

inductive KParam where
  | str (s : String)
  | intV (n : ℤ)
  | floatV (q : ℚ)
  | otherV
deriving DecidableEq

inductive KValue where
  | expression (formula : String)
  | constant (q : ℚ)
deriving DecidableEq

inductive PyErr where
  | unboundLocalError
  | nameError
deriving DecidableEq

def K_accessor (kparam : KParam) : Except PyErr KValue :=
  -- local variable K, initially unbound
  let K0 : Option KValue := none
  -- if isinstance(kparam, str): K = Expression(params[K], element=...)
  let K1 : Option KValue :=
    match kparam with
    | .str s => some (.expression s)
    | _ => K0
  -- elif isinstance(kparam, float) or isinstance(kparam, int): K = Constant(kparam)
  let K2 : Option KValue :=
    match K1 with
    | some v => some v
    | none =>
      match kparam with
      | .intV n => some (.constant (n : ℚ))
      | .floatV q => some (.constant q)
      | _ => none
  -- return K
  match K2 with
  | some v => Except.ok v
  | none => Except.error PyErr.unboundLocalError

/-! ## add_fluid_dirichlet_condition (problem.py lines 70-72)

The method signature is (self, condition, boundary, **kwargs): there is no
time parameter.  The body appends the DirichletBC and then evaluates
if time: ... where time is a free name resolved in the enclosing scopes;
the keyword arguments are never consulted.  timeGlobal models the module
level binding of the name time (none when no wildcard import supplies it,
in which case the lookup raises NameError after the append has happened). -/

structure BCState where
  fbcs : List (ℕ × ℕ)
  tconditions : List ℕ
deriving DecidableEq

def add_fluid_dirichlet_condition (timeGlobal : Option Bool) (st : BCState)
    (condition boundary : ℕ) (kwargs : List (String × Bool)) :
    BCState × Option PyErr :=
  -- self.fbcs.append(DirichletBC(self.FS_F, condition, boundary))
  let st1 : BCState := { st with fbcs := st.fbcs ++ [(condition, boundary)] }
  -- if time: self.tconditions.append(condition)
  match timeGlobal with
  | none => (st1, some PyErr.nameError)
  | some b =>
    if b then ({ st1 with tconditions := st1.tconditions ++ [condition] }, none)
    else (st1, none)

/-! ## The time-stepping driver (problem.py lines 196-238)

The two nonlinear solves and the two projections are external toolkit
calls; their numeric results are supplied by oracles (indexed by call count
for the solves).  Field contents are abstracted to one rational per field.
pFormVal is the content of the pressure Function object that MForm captured
at construction; pAttrVal is the content of the object currently bound to
the attribute self.p.  fluid_solid_coupling rebinds the attribute to a
fresh object and never writes the captured one. -/

structure Oracles where
  msolV : ℕ → ℚ
  ssolV : ℕ → ℚ
  couplingV : ℚ → ℚ → ℚ
  flowV : ℚ → ℚ → ℚ → ℚ

structure DState where
  t : ℚ
  mf : ℚ
  mf_n : ℚ
  Us : ℚ
  Us_n : ℚ
  Uf : ℚ
  pFormVal : ℚ
  pAttrVal : ℚ
  tconds : List ℚ
  nFluid : ℕ
  nSolid : ℕ
deriving DecidableEq

inductive Ev where
  | setConds (t : ℚ)
  | fluidSolve (pUsed : ℚ)
  | solidSolve
  | coupling (pNew : ℚ)
  | snapshot
  | flowPost
  | emit (Uf Us t : ℚ)
deriving DecidableEq

/-- One inner iteration: msol.solve(); ssol.solve(); fluid_solid_coupling().
The fluid solve assembles MForm, reading the pressure object captured at
construction (pFormVal); the coupling projects a new pressure Function and
rebinds the attribute (pAttrVal), leaving the captured object untouched. -/
def innerIteration (o : Oracles) (s : DState) : List Ev × DState :=
  let s1 : DState := { s with mf := o.msolV s.nFluid, nFluid := s.nFluid + 1 }
  let s2 : DState := { s1 with Us := o.ssolV s1.nSolid, nSolid := s1.nSolid + 1 }
  let pnew : ℚ := o.couplingV s2.mf s2.Us
  let s3 : DState := { s2 with pAttrVal := pnew }
  ([Ev.fluidSolve s.pFormVal, Ev.solidSolve, Ev.coupling pnew], s3)

/-- for x in range(n): one inner iteration each pass. -/
def innerLoop (o : Oracles) : ℕ → DState → List Ev × DState
  | 0, s => ([], s)
  | n + 1, s =>
    let r1 := innerIteration o s
    let r2 := innerLoop o n r1.2
    (r1.1 ++ r2.1, r2.2)

/-- One pass of the while-loop body of solve: update the t attribute of
every time-dependent condition, run exactly 3 inner iterations, snapshot
mf_n and Us_n, run calculate_flow_vector, yield (Uf, Us, t), then advance
t by dt. -/
def outerStep (o : Oracles) (dt : ℚ) (s : DState) : List Ev × DState :=
  let s0 : DState := { s with tconds := s.tconds.map (fun _ => s.t) }
  let r := innerLoop o 3 s0
  let s3 := r.2
  let s4 : DState := { s3 with mf_n := s3.mf, Us_n := s3.Us }
  let uf : ℚ := o.flowV s4.Us s4.Us_n s4.pAttrVal
  let s5 : DState := { s4 with Uf := uf }
  let s6 : DState := { s5 with t := s5.t + dt }
  ([Ev.setConds s.t] ++ r.1 ++ [Ev.snapshot, Ev.flowPost, Ev.emit uf s5.Us s.t], s6)

/-- The while t < tf loop of solve, with a fuel bound on the number of
outer steps. -/
def solve_run (o : Oracles) (dt tf : ℚ) : ℕ → DState → List Ev
  | 0, _ => []
  | fuel + 1, s =>
    if s.t < tf then
      (outerStep o dt s).1 ++ solve_run o dt tf fuel (outerStep o dt s).2
    else []

/-- State at entry of solve: t = 0, every Function object holds the zero
field, the captured pressure object and the attribute included. -/
def initState (tconds0 : List ℚ) : DState :=
  { t := 0, mf := 0, mf_n := 0, Us := 0, Us_n := 0, Uf := 0,
    pFormVal := 0, pAttrVal := 0, tconds := tconds0, nFluid := 0, nSolid := 0 }

/-- The t components of the yielded tuples, in order. -/
def emittedTimes (tr : List Ev) : List ℚ :=
  tr.filterMap fun e =>
    match e with
    | .emit _ _ t => some t
    | _ => none

/-- Oracles of the quiescent end-to-end scenario: both solves and both
projections return the zero field. -/
def oZero : Oracles := ⟨fun _ => 0, fun _ => 0, fun _ _ => 0, fun _ _ _ => 0⟩

/-- Oracles whose coupling projection returns the constant-1 field, to
exhibit that the fluid solve never sees the recomputed pressure. -/
def oConst1 : Oracles := ⟨fun _ => 0, fun _ => 0, fun _ _ => 1, fun _ _ _ => 0⟩

/-- An event is compatible with the fluid solve only ever reading the
pristine construction-time pressure object. -/
def usesInitialPressure : Ev → Bool
  | .fluidSolve pv => pv == 0
  | _ => true

/-- Coupling value of the first inner iteration. -/
def cp1 (o : Oracles) (s : DState) : ℚ :=
  o.couplingV (o.msolV s.nFluid) (o.ssolV s.nSolid)

/-- Coupling value of the second inner iteration. -/
def cp2 (o : Oracles) (s : DState) : ℚ :=
  o.couplingV (o.msolV (s.nFluid + 1)) (o.ssolV (s.nSolid + 1))

/-- Coupling value of the third inner iteration. -/
def cp3 (o : Oracles) (s : DState) : ℚ :=
  o.couplingV (o.msolV (s.nFluid + 2)) (o.ssolV (s.nSolid + 2))

/-- Flow value projected after the third iteration. -/
def ufv (o : Oracles) (s : DState) : ℚ :=
  o.flowV (o.ssolV (s.nSolid + 2)) (o.ssolV (s.nSolid + 2)) (cp3 o s)

/-- Driver state after k outer steps of the quiescent scenario run
(dt = 1/100, all oracle values zero, no registered conditions). -/
def sAfter (k : ℕ) : DState :=
  { t := (k : ℚ) / 100, mf := 0, mf_n := 0, Us := 0, Us_n := 0, Uf := 0,
    pFormVal := 0, pAttrVal := 0, tconds := [], nFluid := 3 * k, nSolid := 3 * k }

/-- Event trace of outer step number k of the quiescent scenario run. -/
def traceZ (k : ℕ) : List Ev :=
  [Ev.setConds ((k : ℚ) / 100),
   Ev.fluidSolve 0, Ev.solidSolve, Ev.coupling 0,
   Ev.fluidSolve 0, Ev.solidSolve, Ev.coupling 0,
   Ev.fluidSolve 0, Ev.solidSolve, Ev.coupling 0,
   Ev.snapshot, Ev.flowPost, Ev.emit 0 0 ((k : ℚ) / 100)]

/-! ## Theorems -/

/-- Bounds on labels are monotone. -/
theorem labelsBelow_mono (e : SExpr) :
    ∀ n m : ℕ, n ≤ m → labelsBelow e n = true → labelsBelow e m = true := by
  induction e with
  | const q => intro n m _ _; rfl
  | term i => intro n m _ _; rfl
  | svar l b ih =>
    intro n m hnm h
    simp only [labelsBelow, Bool.and_eq_true, decide_eq_true_eq] at h ⊢
    exact ⟨lt_of_lt_of_le h.1 hnm, ih n m hnm h.2⟩
  | add a b iha ihb =>
    intro n m hnm h
    simp only [labelsBelow, Bool.and_eq_true] at h ⊢
    exact ⟨iha n m hnm h.1, ihb n m hnm h.2⟩
  | mul a b iha ihb =>
    intro n m hnm h
    simp only [labelsBelow, Bool.and_eq_true] at h ⊢
    exact ⟨iha n m hnm h.1, ihb n m hnm h.2⟩
  | neg a ih => intro n m hnm h; exact ih n m hnm h
  | sinv a ih => intro n m hnm h; exact ih n m hnm h
  | sexp a ih => intro n m hnm h; exact ih n m hnm h
  | qpow a q ih => intro n m hnm h; exact ih n m hnm h

/-- The structural derivative with respect to a label not occurring in the
expression evaluates to zero, whatever the terminal valuation and the
interpretations of exp and pow. -/
theorem evalS_sdiff_of_labelsBelow (tau : ℕ → ℚ) (taue : ℚ → ℚ) (taup : ℚ → ℚ → ℚ) :
    ∀ (e : SExpr) (n : ℕ), labelsBelow e n = true →
      evalS tau taue taup (sdiff e n) = 0 := by
  intro e
  induction e with
  | const q => intro n _; simp [sdiff, evalS]
  | term i => intro n _; simp [sdiff, evalS]
  | svar l b ih =>
    intro n h
    simp only [labelsBelow, Bool.and_eq_true, decide_eq_true_eq] at h
    have hne : l ≠ n := Nat.ne_of_lt h.1
    simp [sdiff, hne, ih n h.2]
  | add a b iha ihb =>
    intro n h
    simp only [labelsBelow, Bool.and_eq_true] at h
    simp [sdiff, evalS, iha n h.1, ihb n h.2]
  | mul a b iha ihb =>
    intro n h
    simp only [labelsBelow, Bool.and_eq_true] at h
    simp [sdiff, evalS, iha n h.1, ihb n h.2]
  | neg a ih => intro n h; simp [sdiff, evalS, ih n h]
  | sinv a ih => intro n h; simp [sdiff, evalS, ih n h]
  | sexp a ih => intro n h; simp [sdiff, evalS, ih n h]
  | qpow a q ih => intro n h; simp [sdiff, evalS, ih n h]

/-- C2: the pressure computed by fluid_solid_coupling is the projection of
diff(Psi, variable(J*phi)) - L, but the differentiation variable is created
fresh inside the method, with a label strictly larger than every label used
when Psi was built; the UFL derivative is therefore identically zero and
the projected pressure equals -L for every constitutive law, every state
and every interpretation of the nonlinear primitives.  In particular at the
reference state J = 1, m = 0 the pressure is not determined by the
derivative of Psi with respect to J: it is independent of Psi. -/
theorem C2_coupling_pressure_ignores_energy (Psi : SExpr) (rho phi0 : ℚ) (n : ℕ)
    (tau : ℕ → ℚ) (taue : ℚ → ℚ) (taup : ℚ → ℚ → ℚ)
    (h : labelsBelow Psi n = true) :
    evalS tau taue taup (fluid_solid_coupling_expr Psi rho phi0 n) = - tau termL := by
  have h2 : labelsBelow Psi (n + 2) = true :=
    labelsBelow_mono Psi n (n + 2) (Nat.le_add_right n 2) h
  simp [fluid_solid_coupling_expr, evalS,
    evalS_sdiff_of_labelsBelow tau taue taup Psi (n + 2) h2]

/-- C2 witness: the example exponential law has all labels below 9, and at
the concrete valuation tauW the coupling pressure evaluates to minus the
multiplier value, ignoring the law entirely. -/
theorem C2_witness :
    labelsBelow PsiExample 9 = true ∧
      evalS tauW id (fun q _ => q) (fluid_solid_coupling_expr PsiExample 1000 (1/10) 9)
        = - tauW termL :=
  ⟨by decide,
   C2_coupling_pressure_ignores_energy PsiExample 1000 (1/10) 9 tauW id
     (fun q _ => q) (by decide)⟩

/-- C4 counterexample: at a point where only the pressure gradient and the
test-function gradient are nonzero, the integrand built by the code and the
integrand as the specification words it differ (the code adds the
permeability term, the specification subtracts it). -/
theorem C4_counterexample :
    set_fluid_variational_form_integrand 1 1 (1/2) 1 ptSign
      ≠ fluid_form_claim_integrand 1 1 (1/2) 1 ptSign := by
  simp only [set_fluid_variational_form_integrand, fluid_form_claim_integrand, ptSign,
    M2.addM, M2.idM, M2.smulM, M2.mulM, M2.det, M2.transposeM, M2.invM, M2.mulVec,
    V2.add, V2.sub, V2.smul, V2.negV, V2.dot]
  norm_num

/-- C4: the fluid integrand built by set_fluid_variational_form equals the
specified formula with the permeability term entering with a plus sign
(the code subtracts inner(-A grad p, grad v)); the Jacobian
derivative(Form, m) is exactly the directional derivative of the integrand
with respect to the coefficient m alone (the form is affine in m), and it
does not depend on the pressure field, which is frozen during this
linearization. -/
theorem C4_fluid_form_and_jacobian :
    (∀ rho dt th kappa pt,
      set_fluid_variational_form_integrand rho dt th kappa pt
        = fluid_form_amended_integrand rho dt th kappa pt)
  ∧ (∀ rho dt th kappa pt s dm dgm,
      set_fluid_variational_form_integrand rho dt th kappa (perturbM pt s dm dgm)
        = set_fluid_variational_form_integrand rho dt th kappa pt
          + s * set_fluid_variational_form_jacobian rho dt th kappa pt dm dgm)
  ∧ (∀ rho dt th kappa pt dm dgm pv gpv,
      set_fluid_variational_form_jacobian rho dt th kappa
          { pt with p := pv, gp := gpv } dm dgm
        = set_fluid_variational_form_jacobian rho dt th kappa pt dm dgm) := by
  refine ⟨?_, ?_, ?_⟩
  · intro rho dt th kappa pt
    simp only [set_fluid_variational_form_integrand, fluid_form_amended_integrand,
      M2.addM, M2.idM, M2.smulM, M2.mulM, M2.det, M2.transposeM, M2.invM, M2.mulVec,
      V2.add, V2.sub, V2.smul, V2.negV, V2.dot]
    ring
  · intro rho dt th kappa pt s dm dgm
    simp only [set_fluid_variational_form_integrand, set_fluid_variational_form_jacobian,
      perturbM, M2.addM, M2.idM, M2.smulM, M2.mulM, M2.det, M2.transposeM, M2.invM,
      M2.mulVec, V2.add, V2.sub, V2.smul, V2.negV, V2.dot]
    ring
  · intro rho dt th kappa pt dm dgm pv gpv
    simp only [set_fluid_variational_form_jacobian]

/-- C9: the source term of the fluid residual is the literal
Constant(1e-1): for every parameter bag the integrand coincides with the
source-generalized integrand at q = 1/10, and for every bag with a nonzero
density no choice of the bag makes the residual a zero-source (q = 0)
equation. -/
theorem C9_source_is_fixed :
    (∀ (P : Params) (pt : FluidPoint),
      fluidIntegrandOfParams P pt = fluidIntegrandWithSourceOfParams P (1/10) pt)
  ∧ (∀ P : Params, P.rho ≠ 0 →
      ¬ (∀ pt : FluidPoint,
        fluidIntegrandOfParams P pt = fluidIntegrandWithSourceOfParams P 0 pt)) := by
  constructor
  · intro P pt
    simp only [fluidIntegrandOfParams, fluidIntegrandWithSourceOfParams,
      set_fluid_variational_form_integrand, fluid_form_integrand_with_source]
  · intro P hrho hall
    have h := hall ptSource
    simp only [fluidIntegrandOfParams, fluidIntegrandWithSourceOfParams,
      set_fluid_variational_form_integrand, fluid_form_integrand_with_source, ptSource,
      M2.addM, M2.idM, M2.smulM, M2.mulM, M2.det, M2.transposeM, M2.invM, M2.mulVec,
      V2.add, V2.sub, V2.smul, V2.negV, V2.dot] at h
    apply hrho
    linarith

/-- C9 witness: the scenario parameter bag has nonzero density and its
fluid residual is not a zero-source equation. -/
theorem C9_witness :
    P0.rho ≠ 0 ∧
      ¬ (∀ pt : FluidPoint,
        fluidIntegrandOfParams P0 pt = fluidIntegrandWithSourceOfParams P0 0 pt) :=
  ⟨by norm_num [P0], C9_source_is_fixed.2 P0 (by norm_num [P0])⟩

/-- C7: the permeability accessor returns a spatial Expression for a string
parameter and a Constant for an int or float parameter, and raises (the
local variable stays unbound) exactly when the parameter is of any other
type. -/
theorem C7_K_accessor_classification :
    (∀ s, K_accessor (.str s) = Except.ok (.expression s))
  ∧ (∀ n : ℤ, K_accessor (.intV n) = Except.ok (.constant (n : ℚ)))
  ∧ (∀ q : ℚ, K_accessor (.floatV q) = Except.ok (.constant q))
  ∧ (∀ kp, K_accessor kp = Except.error PyErr.unboundLocalError ↔ kp = KParam.otherV) := by
  refine ⟨fun s => rfl, fun n => rfl, fun q => rfl, fun kp => ?_⟩
  cases kp <;> simp [K_accessor]

/-- C8: add_fluid_dirichlet_condition always appends the fluid Dirichlet
condition to fbcs, but the optional time-dependent flag has no effect: the
result is independent of the keyword arguments for every possible module
level binding of the name time, and when no wildcard import supplies that
name the call raises NameError after the append, leaving tconditions
untouched even though time=True was passed. -/
theorem C8_time_flag_has_no_effect :
    (∀ g st c b kw1 kw2,
      add_fluid_dirichlet_condition g st c b kw1
        = add_fluid_dirichlet_condition g st c b kw2)
  ∧ (∀ g st c b kw,
      (add_fluid_dirichlet_condition g st c b kw).1.fbcs = st.fbcs ++ [(c, b)])
  ∧ add_fluid_dirichlet_condition none ⟨[], []⟩ 7 3 [("time", true)]
      = (⟨[(7, 3)], []⟩, some PyErr.nameError) := by
  refine ⟨fun g st c b kw1 kw2 => rfl, ?_, rfl⟩
  intro g st c b kw
  rcases g with _ | b2
  · rfl
  · cases b2 <;> rfl

/-- Closed form of one outer step: the trace and the successor state,
written out. -/
theorem outerStep_eq (o : Oracles) (dt : ℚ) (s : DState) :
    outerStep o dt s =
      ([Ev.setConds s.t,
        Ev.fluidSolve s.pFormVal, Ev.solidSolve, Ev.coupling (cp1 o s),
        Ev.fluidSolve s.pFormVal, Ev.solidSolve, Ev.coupling (cp2 o s),
        Ev.fluidSolve s.pFormVal, Ev.solidSolve, Ev.coupling (cp3 o s),
        Ev.snapshot, Ev.flowPost, Ev.emit (ufv o s) (o.ssolV (s.nSolid + 2)) s.t],
       { t := s.t + dt, mf := o.msolV (s.nFluid + 2), mf_n := o.msolV (s.nFluid + 2),
         Us := o.ssolV (s.nSolid + 2), Us_n := o.ssolV (s.nSolid + 2),
         Uf := ufv o s, pFormVal := s.pFormVal, pAttrVal := cp3 o s,
         tconds := s.tconds.map (fun _ => s.t),
         nFluid := s.nFluid + 3, nSolid := s.nSolid + 3 }) := rfl

/-- Unfolding of one pass of the while loop when the guard holds. -/
theorem solve_run_succ (o : Oracles) (dt tf : ℚ) (fuel : ℕ) (s : DState)
    (h : s.t < tf) :
    solve_run o dt tf (fuel + 1) s
      = (outerStep o dt s).1 ++ solve_run o dt tf fuel (outerStep o dt s).2 := by
  simp [solve_run, h]

/-- The loop body never runs once the guard fails. -/
theorem solve_run_stop (o : Oracles) (dt tf : ℚ) (fuel : ℕ) (s : DState)
    (h : ¬ s.t < tf) :
    solve_run o dt tf fuel s = [] := by
  cases fuel <;> simp [solve_run, h]

/-- C1: each pass of the outer loop of solve first sets the t attribute of
every registered time-dependent condition to the current time, then runs
exactly 3 inner iterations, each a fluid solve followed by a solid solve
followed by the coupling step, with no convergence test (the trace shape is
the same for every oracle); after the third iteration the snapshots
mf_n := mf and Us_n := Us are taken, the flow post-processor runs, one
(Uf, Us, t) tuple is emitted carrying the current time, and t advances by
exactly dt. -/
theorem C1_outer_step_structure (o : Oracles) (dt : ℚ) (s : DState) :
    (∃ p1 p2 p3,
      (outerStep o dt s).1
        = [Ev.setConds s.t,
           Ev.fluidSolve s.pFormVal, Ev.solidSolve, Ev.coupling p1,
           Ev.fluidSolve s.pFormVal, Ev.solidSolve, Ev.coupling p2,
           Ev.fluidSolve s.pFormVal, Ev.solidSolve, Ev.coupling p3,
           Ev.snapshot, Ev.flowPost,
           Ev.emit (outerStep o dt s).2.Uf (outerStep o dt s).2.Us s.t])
  ∧ (outerStep o dt s).2.t = s.t + dt
  ∧ (outerStep o dt s).2.mf_n = (outerStep o dt s).2.mf
  ∧ (outerStep o dt s).2.Us_n = (outerStep o dt s).2.Us
  ∧ (outerStep o dt s).2.tconds = s.tconds.map (fun _ => s.t) := by
  rw [outerStep_eq]
  exact ⟨⟨cp1 o s, cp2 o s, cp3 o s, rfl⟩, rfl, rfl, rfl, rfl⟩

/-- Along any run started from the construction state, every fluid solve
reads the pristine construction-time pressure object. -/
theorem solve_run_all_initial_pressure (o : Oracles) (dt tf : ℚ) :
    ∀ (fuel : ℕ) (s : DState), s.pFormVal = 0 →
      (solve_run o dt tf fuel s).all usesInitialPressure = true := by
  intro fuel
  induction fuel with
  | zero => intro s _; simp [solve_run]
  | succ n ih =>
    intro s hs
    by_cases h : s.t < tf
    · rw [solve_run_succ o dt tf n s h, List.all_append]
      have h1 : (outerStep o dt s).1.all usesInitialPressure = true := by
        rw [outerStep_eq]
        simp [List.all, usesInitialPressure, hs]
      have h2 : (outerStep o dt s).2.pFormVal = 0 := by rw [outerStep_eq]; exact hs
      rw [h1, ih (outerStep o dt s).2 h2]
      rfl
    · rw [solve_run_stop o dt tf (n + 1) s h]; rfl

/-- C3: the pressure recomputed by the coupling step never feeds back into
the fluid solve.  MForm captures the pressure Function object created in
the constructor; fluid_solid_coupling rebinds the attribute to a freshly
projected object and never writes the captured one, so for every oracle,
every configuration and every number of steps each fluid solve assembles
with the initial (zero) pressure field.  Concretely, with a coupling whose
projection returns the constant 1 field, the second and third fluid solves
of the first step still read pressure 0 although the most recent coupling
step produced 1. -/
theorem C3_fluid_solve_uses_stale_pressure :
    (∀ (o : Oracles) (dt tf : ℚ) (fuel : ℕ) (tc0 : List ℚ),
      (solve_run o dt tf fuel (initState tc0)).all usesInitialPressure = true)
  ∧ (outerStep oConst1 (1/100) (initState [])).1
      = [Ev.setConds 0, Ev.fluidSolve 0, Ev.solidSolve, Ev.coupling 1,
         Ev.fluidSolve 0, Ev.solidSolve, Ev.coupling 1,
         Ev.fluidSolve 0, Ev.solidSolve, Ev.coupling 1,
         Ev.snapshot, Ev.flowPost, Ev.emit 0 0 0] := by
  constructor
  · intro o dt tf fuel tc0
    exact solve_run_all_initial_pressure o dt tf fuel (initState tc0) rfl
  · rfl

/-- The quiescent scenario run: the state after each of the first five
outer steps. -/
theorem outerStep_oZero_state (k : ℕ) :
    (outerStep oZero (1/100) (sAfter k)).2 = sAfter (k + 1) := by
  rw [outerStep_eq]
  simp [sAfter, oZero, cp1, cp2, cp3, ufv, DState.mk.injEq]
  constructor
  · ring
  · omega

/-- The quiescent scenario run: the trace of each outer step. -/
theorem outerStep_oZero_trace (k : ℕ) :
    (outerStep oZero (1/100) (sAfter k)).1 = traceZ k := by
  rw [outerStep_eq]
  simp [sAfter, oZero, cp1, cp2, cp3, ufv, traceZ]

/-- In the quiescent scenario the run performs exactly five outer steps,
whatever fuel beyond five is available, and the emitted times are
0, 1/100, 2/100, 3/100 and 4/100. -/
theorem solve_run_oZero_emitted (n : ℕ) :
    emittedTimes (solve_run oZero (1/100) (1/20) (n + 5) (initState []))
      = [0, 1/100, 2/100, 3/100, 4/100] := by
  have hinit : initState [] = sAfter 0 := by
    simp [initState, sAfter, DState.mk.injEq]
  have g0 : (sAfter 0).t < 1/20 := by norm_num [sAfter]
  have g1 : (sAfter 1).t < 1/20 := by norm_num [sAfter]
  have g2 : (sAfter 2).t < 1/20 := by norm_num [sAfter]
  have g3 : (sAfter 3).t < 1/20 := by norm_num [sAfter]
  have g4 : (sAfter 4).t < 1/20 := by norm_num [sAfter]
  have g5 : ¬ (sAfter 5).t < 1/20 := by norm_num [sAfter]
  rw [hinit, show n + 5 = n + 1 + 1 + 1 + 1 + 1 from by omega]
  rw [solve_run_succ oZero (1/100) (1/20) (n + 1 + 1 + 1 + 1) (sAfter 0) g0,
    outerStep_oZero_state 0]
  rw [solve_run_succ oZero (1/100) (1/20) (n + 1 + 1 + 1) (sAfter 1) g1,
    outerStep_oZero_state 1]
  rw [solve_run_succ oZero (1/100) (1/20) (n + 1 + 1) (sAfter 2) g2,
    outerStep_oZero_state 2]
  rw [solve_run_succ oZero (1/100) (1/20) (n + 1) (sAfter 3) g3,
    outerStep_oZero_state 3]
  rw [solve_run_succ oZero (1/100) (1/20) n (sAfter 4) g4,
    outerStep_oZero_state 4]
  rw [solve_run_stop oZero (1/100) (1/20) n (sAfter 5) g5]
  rw [outerStep_oZero_trace 0, outerStep_oZero_trace 1, outerStep_oZero_trace 2,
    outerStep_oZero_trace 3, outerStep_oZero_trace 4]
  simp [emittedTimes, traceZ]

/-- C5 counterexample: in the scenario dt = 1/100, tf = 1/20 the emitted
t values are not 1/100, ..., 5/100: the generator yields before advancing
t, so the first tuple carries t = 0. -/
theorem C5_counterexample :
    emittedTimes (solve_run oZero (1/100) (1/20) 100 (initState []))
      ≠ [1/100, 2/100, 3/100, 4/100, 5/100] := by
  have h := solve_run_oZero_emitted 95
  rw [show (100 : ℕ) = 95 + 5 from rfl, h]
  intro hc
  injection hc with h1 _
  norm_num at h1

/-- C5 amended: the driver yields exactly 5 tuples, and their t values are
0, 1/100, 2/100, 3/100, 4/100 in order: each tuple is emitted before t is
advanced, so the first tuple carries t = 0 and t = 5/100 is never
emitted. -/
theorem C5_driver_five_steps (n : ℕ) :
    emittedTimes (solve_run oZero (1/100) (1/20) (n + 5) (initState []))
      = [0, 1/100, 2/100, 3/100, 4/100]
  ∧ (emittedTimes (solve_run oZero (1/100) (1/20) (n + 5) (initState []))).length = 5 := by
  refine ⟨solve_run_oZero_emitted n, ?_⟩
  rw [solve_run_oZero_emitted n]
  rfl

/-- C6 counterexample: for the two-dimensional displacement fields of the
meshes on which the problem constructs, the undeformed state F = I gives
I1 = tr(C) = 2, not 3. -/
theorem C6_counterexample :
    kinematics_I1 2 (1 : Matrix (Fin 2) (Fin 2) ℝ) ≠ 3 := by
  simp [kinematics_I1, Matrix.transpose_one, Matrix.det_one, Real.one_rpow,
    Matrix.trace_one, Fintype.card_fin]

/-- C6 amended: in geometric dimension 3 the modified invariants equal 3 at
the undeformed state F = I, and for every F with positive Jacobian they are
invariant under uniform rescaling of the reference configuration
F to alpha F (with J scaling accordingly as det(alpha F)). -/
theorem C6_invariants_dim3 :
    kinematics_I1 3 1 = 3 ∧ kinematics_I2 3 1 = 3
  ∧ (∀ (F : Matrix (Fin 3) (Fin 3) ℝ) (alpha : ℝ), 0 < F.det → 0 < alpha →
      kinematics_I1 3 (alpha • F) = kinematics_I1 3 F
        ∧ kinematics_I2 3 (alpha • F) = kinematics_I2 3 F) := by
  refine ⟨?_, ?_, ?_⟩
  · simp [kinematics_I1, Matrix.transpose_one, Matrix.det_one, Real.one_rpow,
      Matrix.trace_one, Fintype.card_fin]
  · simp [kinematics_I2, Matrix.transpose_one, Matrix.det_one, Real.one_rpow,
      Matrix.trace_one, Fintype.card_fin]
    norm_num
  · intro F alpha hJ ha
    have hdet : (alpha • F).det = alpha ^ 3 * F.det := by
      simp [Matrix.det_smul, Fintype.card_fin]
    have hsm : (alpha • F).transpose * (alpha • F)
        = (alpha * alpha) • (F.transpose * F) := by
      rw [Matrix.transpose_smul, Matrix.smul_mul, Matrix.mul_smul, smul_smul]
    have hC : ((alpha • F).transpose * (alpha • F)).trace
        = alpha ^ 2 * (F.transpose * F).trace := by
      rw [hsm, Matrix.trace_smul, smul_eq_mul]
      ring
    have hCC : (((alpha • F).transpose * (alpha • F))
          * ((alpha • F).transpose * (alpha • F))).trace
        = alpha ^ 4 * ((F.transpose * F) * (F.transpose * F)).trace := by
      rw [hsm, Matrix.smul_mul, Matrix.mul_smul, smul_smul, Matrix.trace_smul,
        smul_eq_mul]
      ring
    have hpow2 : ((alpha ^ 3 : ℝ)) ^ (-(2 : ℝ) / 3) = (alpha ^ 2)⁻¹ := by
      rw [← Real.rpow_natCast alpha 3, ← Real.rpow_mul ha.le]
      rw [show ((3 : ℕ) : ℝ) * (-(2 : ℝ) / 3) = -(2 : ℝ) from by norm_num]
      rw [show (-(2 : ℝ)) = -((2 : ℕ) : ℝ) from by norm_num]
      rw [Real.rpow_neg ha.le, Real.rpow_natCast]
    have hpow4 : ((alpha ^ 3 : ℝ)) ^ (-(4 : ℝ) / 3) = (alpha ^ 4)⁻¹ := by
      rw [← Real.rpow_natCast alpha 3, ← Real.rpow_mul ha.le]
      rw [show ((3 : ℕ) : ℝ) * (-(4 : ℝ) / 3) = -(4 : ℝ) from by norm_num]
      rw [show (-(4 : ℝ)) = -((4 : ℕ) : ℝ) from by norm_num]
      rw [Real.rpow_neg ha.le, Real.rpow_natCast]
    have ha3 : (0 : ℝ) ≤ alpha ^ 3 := by positivity
    constructor
    · unfold kinematics_I1
      rw [hdet, hC, Real.mul_rpow ha3 hJ.le, hpow2]
      field_simp
      ring
    · unfold kinematics_I2
      rw [hdet, hC, hCC, Real.mul_rpow ha3 hJ.le, hpow4]
      field_simp
      ring

/-- C6 witness: the identity deformation gradient in dimension 3 has
positive Jacobian, the scale factor 2 is positive, and rescaling by 2
leaves the first invariant unchanged. -/
theorem C6_witness :
    (0 : ℝ) < (1 : Matrix (Fin 3) (Fin 3) ℝ).det ∧ (0 : ℝ) < 2
      ∧ kinematics_I1 3 ((2 : ℝ) • (1 : Matrix (Fin 3) (Fin 3) ℝ))
          = kinematics_I1 3 1 :=
  ⟨by simp, by norm_num,
   (C6_invariants_dim3.2.2 1 2 (by simp) (by norm_num)).1⟩

/-- C10: the fluid form builder shape-checks exactly on meshes of geometric
dimension 2: the hard-coded (2,2) permeability tensor must compose with the
(d,d) kinematic tensors, so the construction succeeds if and only if
d = 2. -/
theorem C10_construction_requires_dim2 (d : ℕ) :
    (set_fluid_variational_form_shape d).isSome = true ↔ d = 2 := by
  constructor
  · intro h
    by_contra hne
    rw [show set_fluid_variational_form_shape d = none from by
      simp [set_fluid_variational_form_shape, invShape, transposeShape, mulShape,
        Option.bind, hne]] at h
    simp at h
  · rintro rfl
    rfl

end Poroelastic
